import Mathlib

/-!
Verification of the mongodb-exporter repository: a shallow embedding of its
three Python modules (mongodb_export.py, mongodb_import.py, mongodb_drop.py)
and proofs about the codec, the import orchestrator, the drop guard and the
entry points.
-/

set_option maxRecDepth 4000

namespace MongoTools

/-- A BSON ObjectId, modelled by its textual form: `str(ObjectId(...))` in
pymongo is the 24-character lowercase hexadecimal rendering, which determines
the identifier. -/
structure Oid where
  hex : String
deriving DecidableEq, Repr

/-- A `datetime.timezone` utc-offset as `fromisoformat` builds it and
`isoformat` renders it: a sign and hour/minute components, plus the
second/microsecond components the offset grammar also admits. -/
structure TzOffset where
  neg : Bool
  h : Nat
  m : Nat
  s : Nat
  us : Nat
deriving DecidableEq, Repr

/-- A BSON datetime as pymongo hands it to the exporter: an instant with
microsecond precision, either naive (pymongo's default) or carrying a
utc-offset tzinfo — the value space `datetime.isoformat` /
`datetime.fromisoformat` exchange for such values. -/
structure DateTime where
  year : Nat
  month : Nat
  day : Nat
  hour : Nat
  minute : Nat
  second : Nat
  micro : Nat
  tz : Option TzOffset
deriving DecidableEq, Repr

/-- The document data model (spec section 3): strings, numbers, booleans,
null, nested documents (ordered key/value lists), sequences, ObjectId values
and datetime values. -/
inductive Value where
  | vNull : Value
  | vBool (b : Bool) : Value
  | vInt (n : Int) : Value
  | vStr (s : String) : Value
  | vOid (o : Oid) : Value
  | vDate (d : DateTime) : Value
  | vDoc (fs : List (String × Value)) : Value
  | vArr (es : List Value) : Value

/-! ### Character-level helpers

The Python code works on text: `str(ObjectId)`, `datetime.isoformat`,
`datetime.fromisoformat`, `re.match` and `str.replace`.  We model those
library routines over `List Char` (a Lean `String` is a structure holding
its `List Char`). -/
/-- ASCII decimal-digit test (`\d` of the regex, restricted to ASCII as the
candidate strings are). -/
def isDigitB (c : Char) : Bool := 48 ≤ c.toNat && c.toNat ≤ 57

/-- Numeric value of a digit character. -/
def digitVal (c : Char) : Nat := c.toNat - 48

/-- The digit character for `n % 10` (used to render zero-padded fields the
way `datetime.isoformat` does). -/
def digitChar (n : Nat) : Char := Char.ofNat (48 + n % 10)

/-- Case-insensitive hexadecimal-digit test: `ObjectId(s)` accepts a
24-character string of hex digits in either case. -/
def isHexDigitCi (c : Char) : Bool :=
  isDigitB c || (97 ≤ c.toNat && c.toNat ≤ 102) || (65 ≤ c.toNat && c.toNat ≤ 70)

/-- Lowercase hexadecimal-digit test: `str(ObjectId)` always renders
lowercase. -/
def isLowerHexDigit (c : Char) : Bool :=
  isDigitB c || (97 ≤ c.toNat && c.toNat ≤ 102)

/-- ASCII lowercasing of one character (the effect of Python's
`str.lower` on the candidate strings involved). -/
def lowerChar (c : Char) : Char :=
  if 65 ≤ c.toNat && c.toNat ≤ 90 then Char.ofNat (c.toNat + 32) else c

/-- ASCII lowercasing of a string. -/
def toLowerAscii (s : String) : String := ⟨s.data.map lowerChar⟩

/-- `value.replace('Z', '+00:00')` from `convert_json_to_bson`: the pattern
is a single character, so the replacement is a straightforward scan. -/
def replaceZChars : List Char → List Char
  | [] => []
  | c :: rest =>
      if c = 'Z' then '+' :: '0' :: '0' :: ':' :: '0' :: '0' :: replaceZChars rest
      else c :: replaceZChars rest

/-- String-level form of `value.replace('Z', '+00:00')`. -/
def pyReplaceZ (s : String) : String := ⟨replaceZChars s.data⟩

/-! ### ObjectId parsing and rendering -/
/-- `ObjectId(value)` on a string: succeeds exactly on 24 hex characters
(either case); the resulting identifier renders in lowercase. -/
def parseObjectId (s : String) : Option Oid :=
  if s.length = 24 && s.data.all isHexDigitCi then some ⟨toLowerAscii s⟩ else none

/-- The data-model invariant on a stored identifier: `str(ObjectId)` is
24 lowercase hex characters. -/
def validOidString (s : String) : Bool :=
  s.length = 24 && s.data.all isLowerHexDigit

/-! ### Datetime rendering (`isoformat`) and parsing (`fromisoformat`) -/
/-- Gregorian leap-year rule. -/
def isLeapYear (y : Nat) : Bool := (y % 4 == 0 && y % 100 != 0) || (y % 400 == 0)

/-- Days in a month, as `datetime` validates them. -/
def daysInMonth (y m : Nat) : Nat :=
  if m = 2 then (if isLeapYear y then 29 else 28)
  else if m = 4 ∨ m = 6 ∨ m = 9 ∨ m = 11 then 30 else 31

/-- The range the `datetime(...)` constructor accepts: the calendar
validation that makes `fromisoformat` reject an impossible date such as
February 31st. -/
def validCivil (dt : DateTime) : Bool :=
  1 ≤ dt.year && dt.year ≤ 9999 && 1 ≤ dt.month && dt.month ≤ 12 &&
  1 ≤ dt.day && dt.day ≤ daysInMonth dt.year dt.month &&
  dt.hour ≤ 23 && dt.minute ≤ 59 && dt.second ≤ 59 && dt.micro ≤ 999999

/-- The tzinfo values the database's datetimes can carry: naive, or a
whole-minute utc-offset in normalized ±HH:MM form (BSON datetimes are
UTC-based; pymongo yields naive or whole-minute-offset aware values), with
the zero offset rendered with a `+` sign as `timezone` does. -/
def validTz : Option TzOffset → Bool
  | none => true
  | some o =>
      o.h ≤ 23 && o.m ≤ 59 && o.s == 0 && o.us == 0 &&
      (!o.neg || !(o.h == 0 && o.m == 0))

/-- Data-model validity of a timestamp value. -/
def validDateTime (dt : DateTime) : Bool := validCivil dt && validTz dt.tz

/-- Two-digit zero-padded rendering. -/
def pad2 (n : Nat) : List Char := [digitChar (n / 10), digitChar n]

/-- Four-digit zero-padded rendering. -/
def pad4 (n : Nat) : List Char :=
  [digitChar (n / 1000), digitChar (n / 100), digitChar (n / 10), digitChar n]

/-- Six-digit zero-padded rendering (the microsecond field). -/
def pad6 (n : Nat) : List Char :=
  [digitChar (n / 100000), digitChar (n / 10000), digitChar (n / 1000),
   digitChar (n / 100), digitChar (n / 10), digitChar n]

/-- The utc-offset suffix `datetime.isoformat()` renders for an aware
value: `±HH:MM`, extended by `:SS` and `.ffffff` exactly when those
components are nonzero. -/
def offsetChars : Option TzOffset → List Char
  | none => []
  | some o =>
      (if o.neg then '-' else '+') :: pad2 o.h ++ ':' :: pad2 o.m ++
      (if o.s = 0 ∧ o.us = 0 then []
       else ':' :: pad2 o.s ++ (if o.us = 0 then [] else '.' :: pad6 o.us))

/-- `datetime.isoformat()`: `YYYY-MM-DDTHH:MM:SS`, with `.ffffff` appended
exactly when the microsecond field is nonzero, followed by the utc-offset
suffix when the value is aware. -/
def isoChars (dt : DateTime) : List Char :=
  pad4 dt.year ++ '-' :: pad2 dt.month ++ '-' :: pad2 dt.day ++
  'T' :: pad2 dt.hour ++ ':' :: pad2 dt.minute ++ ':' :: pad2 dt.second ++
  (if dt.micro = 0 then [] else '.' :: pad6 dt.micro) ++ offsetChars dt.tz

/-- String form of `datetime.isoformat()`. -/
def isoformat (dt : DateTime) : String := ⟨isoChars dt⟩

/-- The optional fractional-seconds part of an ISO time string: absent, or
a dot followed by exactly three or exactly six digits (`fromisoformat`
rejects every other fraction length); whatever follows the fraction is
returned for offset parsing. -/
def parseFracPart : List Char → Option (Nat × List Char)
  | '.' :: f1 :: f2 :: f3 :: rest =>
      if isDigitB f1 && isDigitB f2 && isDigitB f3 then
        match rest with
        | f4 :: f5 :: f6 :: rest2 =>
            if isDigitB f4 && isDigitB f5 && isDigitB f6 then
              some (digitVal f1 * 100000 + digitVal f2 * 10000 +
                    digitVal f3 * 1000 + digitVal f4 * 100 +
                    digitVal f5 * 10 + digitVal f6, rest2)
            else
              some (digitVal f1 * 100 + digitVal f2 * 10 + digitVal f3, rest)
        | _ => some (digitVal f1 * 100 + digitVal f2 * 10 + digitVal f3, rest)
      else none
  | rest => some (0, rest)

/-- The optional utc-offset suffix of an ISO time string, the forms
`fromisoformat` accepts: empty, `±HH:MM`, `±HH:MM:SS` or
`±HH:MM:SS.ffffff`; `timezone` then requires the offset to be strictly
below 24 hours. -/
def parseTz : List Char → Option (Option TzOffset)
  | [] => some none
  | sgn :: h1 :: h2 :: ':' :: m1 :: m2 :: rest =>
      if (sgn == '+' || sgn == '-') && isDigitB h1 && isDigitB h2 &&
         isDigitB m1 && isDigitB m2 then
        let hh := digitVal h1 * 10 + digitVal h2
        let mm := digitVal m1 * 10 + digitVal m2
        match rest with
        | [] =>
            if hh * 3600 + mm * 60 ≤ 86399 then
              some (some ⟨sgn == '-', hh, mm, 0, 0⟩)
            else none
        | ':' :: s1 :: s2 :: rest2 =>
            if isDigitB s1 && isDigitB s2 then
              let ss := digitVal s1 * 10 + digitVal s2
              match rest2 with
              | [] =>
                  if hh * 3600 + mm * 60 + ss ≤ 86399 then
                    some (some ⟨sgn == '-', hh, mm, ss, 0⟩)
                  else none
              | '.' :: f1 :: f2 :: f3 :: f4 :: f5 :: f6 :: [] =>
                  if isDigitB f1 && isDigitB f2 && isDigitB f3 &&
                     isDigitB f4 && isDigitB f5 && isDigitB f6 then
                    if hh * 3600 + mm * 60 + ss ≤ 86399 then
                      some (some ⟨sgn == '-', hh, mm, ss,
                        digitVal f1 * 100000 + digitVal f2 * 10000 +
                        digitVal f3 * 1000 + digitVal f4 * 100 +
                        digitVal f5 * 10 + digitVal f6⟩)
                    else none
                  else none
              | _ => none
            else none
        | _ => none
      else none
  | _ => none

/-- `datetime.fromisoformat` on the strings the decoder feeds it (those
matching the date-like prefix pattern): parse
`YYYY-MM-DDTHH:MM:SS[.fff|.ffffff][±HH:MM[:SS[.ffffff]]]`, validate the
calendar fields as the `datetime` constructor does, and reject everything
else — including an impossible calendar date. -/
def fromisoChars : List Char → Option DateTime
  | y1 :: y2 :: y3 :: y4 :: '-' :: m1 :: m2 :: '-' :: d1 :: d2 :: 'T' ::
    h1 :: h2 :: ':' :: n1 :: n2 :: ':' :: s1 :: s2 :: rest =>
      if isDigitB y1 && isDigitB y2 && isDigitB y3 && isDigitB y4 &&
         isDigitB m1 && isDigitB m2 && isDigitB d1 && isDigitB d2 &&
         isDigitB h1 && isDigitB h2 && isDigitB n1 && isDigitB n2 &&
         isDigitB s1 && isDigitB s2 then
        match parseFracPart rest with
        | some (f, rest2) =>
            match parseTz rest2 with
            | some tzv =>
                let dt : DateTime :=
                  ⟨digitVal y1 * 1000 + digitVal y2 * 100 + digitVal y3 * 10 +
                     digitVal y4,
                   digitVal m1 * 10 + digitVal m2,
                   digitVal d1 * 10 + digitVal d2,
                   digitVal h1 * 10 + digitVal h2,
                   digitVal n1 * 10 + digitVal n2,
                   digitVal s1 * 10 + digitVal s2, f, tzv⟩
                if validCivil dt then some dt else none
            | none => none
        | none => none
      else none
  | _ => none

/-- String-level `datetime.fromisoformat`. -/
def fromisoformat (s : String) : Option DateTime := fromisoChars s.data

/-- `re.match(r'\d\x7b4\x7d-\d\x7b2\x7d-\d\x7b2\x7dT\d\x7b2\x7d:\d\x7b2\x7d:\d\x7b2\x7d', value)`:
a prefix match of the date-like pattern. -/
def matchesDateChars : List Char → Bool
  | y1 :: y2 :: y3 :: y4 :: '-' :: m1 :: m2 :: '-' :: d1 :: d2 :: 'T' ::
    h1 :: h2 :: ':' :: n1 :: n2 :: ':' :: s1 :: s2 :: _ =>
      isDigitB y1 && isDigitB y2 && isDigitB y3 && isDigitB y4 &&
      isDigitB m1 && isDigitB m2 && isDigitB d1 && isDigitB d2 &&
      isDigitB h1 && isDigitB h2 && isDigitB n1 && isDigitB n2 &&
      isDigitB s1 && isDigitB s2
  | _ => false

/-- String-level date-pattern match. -/
def matchesDatePattern (s : String) : Bool := matchesDateChars s.data

/-! ### The codec

Encode is `JSONEncoder.default` in mongodb_export.py as applied by
`json.dump`: each ObjectId becomes `str(obj)`, each datetime becomes
`obj.isoformat()`, containers are walked recursively, scalars pass through.

Decode is `convert_json_to_bson` in mongodb_import.py. -/
mutual

/-- Structure walk of `json.dump(..., cls=JSONEncoder)`: the portable form
of a native value. -/
def encodeValue : Value → Value
  | .vOid o => .vStr o.hex
  | .vDate d => .vStr (isoformat d)
  | .vDoc fs => .vDoc (encodeFields fs)
  | .vArr es => .vArr (encodeElems es)
  | v => v

/-- Encode each entry of a document, key order preserved. -/
def encodeFields : List (String × Value) → List (String × Value)
  | [] => []
  | (k, v) :: rest => (k, encodeValue v) :: encodeFields rest

/-- Encode each element of a sequence. -/
def encodeElems : List Value → List Value
  | [] => []
  | v :: rest => encodeValue v :: encodeElems rest

end

/-- One string-valued `key, value` iteration of `convert_json_to_bson`'s
dict loop: the `_id`/24-character branch tries `ObjectId(value)`, the
date-pattern branch tries
`datetime.fromisoformat(value.replace('Z', '+00:00'))`, and the remaining
case is the source's recursive call, which on a string returns it
unchanged. -/
def convertStrEntry (k : String) (s : String) : Value :=
  if k == "_id" && s.length == 24 then
    match parseObjectId s with
    | some oid => .vOid oid
    | none => .vStr s
  else if matchesDatePattern s then
    match fromisoformat (pyReplaceZ s) with
    | some dt => .vDate dt
    | none => .vStr s
  else .vStr s

mutual

/-- `convert_json_to_bson(obj)`: on a dict, convert every entry; on a list,
convert every element; any other value is returned unchanged. -/
def convert_json_to_bson : Value → Value
  | .vDoc fs => .vDoc (convertFields fs)
  | .vArr es => .vArr (convertElems es)
  | v => v

/-- The dict loop of `convert_json_to_bson`: a string value goes through
the `_id`/date sniffing branches, any other value recurses. -/
def convertFields : List (String × Value) → List (String × Value)
  | [] => []
  | (k, .vStr s) :: rest => (k, convertStrEntry k s) :: convertFields rest
  | (k, v) :: rest => (k, convert_json_to_bson v) :: convertFields rest

/-- The list comprehension of `convert_json_to_bson`. -/
def convertElems : List Value → List Value
  | [] => []
  | v :: rest => convert_json_to_bson v :: convertElems rest

end

/-! ### Data-model validity and codec-safety predicates -/
mutual

/-- The data-model invariants of spec section 3: every identifier is the
rendering of a 12-byte ObjectId (24 lowercase hex characters) and every
timestamp is a calendar-valid instant. -/
def ValidV : Value → Bool
  | .vOid o => validOidString o.hex
  | .vDate d => validDateTime d
  | .vDoc fs => ValidFields fs
  | .vArr es => ValidElems es
  | _ => true

/-- Validity of every entry of a document. -/
def ValidFields : List (String × Value) → Bool
  | [] => true
  | (_, v) :: rest => ValidV v && ValidFields rest

/-- Validity of every element of a sequence. -/
def ValidElems : List Value → Bool
  | [] => true
  | v :: rest => ValidV v && ValidElems rest

end

/-- A string sitting as the value of key `k` in a document survives
decoding: it is not swallowed by the `_id` branch (24 characters of hex
under `_id`) nor by the date branch (date-like pattern that parses). -/
def strEntrySafe (k : String) (s : String) : Bool :=
  if k == "_id" && s.length == 24 then !(s.data.all isHexDigitCi)
  else !(matchesDatePattern s && (fromisoformat (pyReplaceZ s)).isSome)

mutual

/-- Safety of a value outside any dict entry (top level or inside a
sequence): decoding only sniffs dict values, so identifiers and timestamps
placed anywhere else cannot be restored. -/
def codecSafe : Value → Bool
  | .vOid _ => false
  | .vDate _ => false
  | .vDoc fs => entriesSafe fs
  | .vArr es => elemsSafe es
  | _ => true

/-- Safety of every entry of a document: identifiers must sit under `_id`,
timestamps may sit under any key, strings must not be sniffable, and
containers recurse. -/
def entriesSafe : List (String × Value) → Bool
  | [] => true
  | (k, .vStr s) :: rest => strEntrySafe k s && entriesSafe rest
  | (k, .vOid _) :: rest => (k == "_id") && entriesSafe rest
  | (_, .vDate _) :: rest => entriesSafe rest
  | (_, v) :: rest => codecSafe v && entriesSafe rest

/-- Safety of every element of a sequence. -/
def elemsSafe : List Value → Bool
  | [] => true
  | v :: rest => codecSafe v && elemsSafe rest

end

mutual

/-- The document holds an identifier value directly under a key `_id`
(anywhere in the nesting). -/
def containsOidAtId : Value → Bool
  | .vDoc fs => oidAtIdFields fs
  | .vArr es => oidAtIdElems es
  | _ => false

/-- Entry scan for an identifier under `_id`. -/
def oidAtIdFields : List (String × Value) → Bool
  | [] => false
  | (k, .vOid _) :: rest => k == "_id" || oidAtIdFields rest
  | (_, v) :: rest => containsOidAtId v || oidAtIdFields rest

/-- Element scan for an identifier under `_id`. -/
def oidAtIdElems : List Value → Bool
  | [] => false
  | v :: rest => containsOidAtId v || oidAtIdElems rest

end

mutual

/-- The document holds a timestamp value under some key (anywhere in the
nesting). -/
def containsTs : Value → Bool
  | .vDoc fs => tsFields fs
  | .vArr es => tsElems es
  | _ => false

/-- Entry scan for a timestamp value. -/
def tsFields : List (String × Value) → Bool
  | [] => false
  | (_, .vDate _) :: _ => true
  | (_, v) :: rest => containsTs v || tsFields rest

/-- Element scan for a timestamp value. -/
def tsElems : List Value → Bool
  | [] => false
  | v :: rest => containsTs v || tsElems rest

end

/-! ### Claim C10: collection-name derivation from the file name -/
/-- The characters of the literal `.json`. -/
def dotJsonL : List Char := ['.', 'j', 's', 'o', 'n']

/-- `json_file.replace('.json', '')`: Python's `str.replace` deletes every
non-overlapping occurrence of the pattern, scanning left to right. -/
def dropJsonChars : List Char → List Char
  | '.' :: 'j' :: 's' :: 'o' :: 'n' :: rest => dropJsonChars rest
  | c :: rest => c :: dropJsonChars rest
  | [] => []

/-- Whether the text contains the substring `.json`. -/
def hasDotJson : List Char → Bool
  | '.' :: 'j' :: 's' :: 'o' :: 'n' :: _ => true
  | _ :: rest => hasDotJson rest
  | [] => false

/-- `collection_name = json_file.replace('.json', '')` of
mongodb_import.py. -/
def collectionNameOf (fileName : String) : String := ⟨dropJsonChars fileName.data⟩

/-! ### The import orchestrator (mongodb_import.py, import_mongodb_database)

The server is modelled as the target database's contents: each collection
name maps to its list of documents.  Server-side insert failures are
injected through an oracle `failOn` naming the collections whose insert
call raises. -/
/-- The target database: a collection's documents, by collection name. -/
def DBState : Type := String → List Value

/-- `collection.count_documents(...)` with the empty filter. -/
def countDocuments (db : DBState) (coll : String) : Nat := (db coll).length

/-- `collection.drop()`. -/
def dropCollection (db : DBState) (coll : String) : DBState :=
  fun n => if n = coll then [] else db n

/-- The server effect of `insert_many` / `insert_one`: append the batch. -/
def insertMany (db : DBState) (coll : String) (docs : List Value) : DBState :=
  fun n => if n = coll then db n ++ docs else db n

/-- One serialized unit: the file's name and its parsed JSON content. -/
structure ImportFile where
  name : String
  content : Value

/-- Python truthiness of a parsed JSON value (`if not documents`). -/
def isFalsy : Value → Bool
  | .vNull => true
  | .vBool b => !b
  | .vInt n => n == 0
  | .vStr s => s.length == 0
  | .vDoc fs => fs.isEmpty
  | .vArr es => es.isEmpty
  | .vOid _ => false
  | .vDate _ => false

/-- Outcome of processing one unit: the updated database and inserted
count, or the database state at the moment an insert raised. -/
inductive StepResult where
  | ok (db : DBState) (inserted : Nat)
  | error (db : DBState)

/-- One iteration of the `for json_file in json_files` loop: derive the
collection name, skip falsy content, convert, drop a non-empty target
collection, then `insert_many` for a list (when non-empty) or `insert_one`
otherwise. -/
def processFile (failOn : String → Bool) (db : DBState) (f : ImportFile) :
    StepResult :=
  let collName := collectionNameOf f.name
  if isFalsy f.content then .ok db 0
  else
    let db1 := if countDocuments db collName > 0 then dropCollection db collName
               else db
    match convert_json_to_bson f.content with
    | .vArr es =>
        if es.isEmpty then .ok db1 0
        else if failOn collName then .error db1
        else .ok (insertMany db1 collName es) es.length
    | other =>
        if failOn collName then .error db1
        else .ok (insertMany db1 collName [other]) 1

/-- Result of the whole run: loop completed (returns `True`) with the final
state and total, or an exception escaped to the function-level `except`
(returns `False`) leaving the state as it was when the insert raised. -/
inductive RunResult where
  | ok (db : DBState) (total : Nat)
  | failed (db : DBState)

/-- The import loop: a raised insert error escapes the whole loop — the
`try` wraps the entire function body, so no later unit is processed. -/
def importFiles (failOn : String → Bool) (db : DBState) (total : Nat) :
    List ImportFile → RunResult
  | [] => .ok db total
  | f :: rest =>
      match processFile failOn db f with
      | .ok db2 n => importFiles failOn db2 (total + n) rest
      | .error db2 => .failed db2

/-! ### Claim C3: destructive-import replace semantics -/
/-- A target database whose collection `c` already holds one document. -/
def dbC3 : DBState := fun n => if n = "c" then [.vNull] else []

/-- A target database whose collection `c` already holds two documents. -/
def dbC3w : DBState := fun n => if n = "c" then [.vInt 7, .vInt 8] else []

/-! ### The drop guard (mongodb_drop.py, drop_mongodb_database) -/
/-- ASCII whitespace as `str.strip` removes it. -/
def isSpaceB (c : Char) : Bool :=
  c == ' ' || c == '\t' || c == '\n' || c == '\r' || c == '\x0b' || c == '\x0c'

/-- Python `str.strip()`: drop leading and trailing whitespace. -/
def pyStrip (s : String) : String :=
  ⟨(((s.data.dropWhile isSpaceB).reverse.dropWhile isSpaceB).reverse : List Char)⟩

/-- Observable behaviour of one `drop_mongodb_database` call: its return
value, how many confirmation prompts were read, whether the server-side
drop command was issued, and whether `client.close()` ran. -/
structure DropTrace where
  result : Bool
  promptsUsed : Nat
  dropIssued : Bool
  closed : Bool
deriving DecidableEq, Repr

/-- `drop_mongodb_database(connection, database_name, confirm)`:
existence check, then (unless `confirm` skips them) Gate A
(`yes`/`y` after lowering and stripping), Gate B (the exact database
name after stripping), Gate C (the literal `DELETE` after stripping); on
confirmation the drop command is issued and the database list re-checked
(`dropWorks` tells whether the name is gone).  Every modelled path runs
`client.close()`. -/
def drop_mongodb_database (dbNames : List String) (name : String)
    (confirm : Bool) (r1 r2 r3 : String) (dropWorks : Bool) : DropTrace :=
  if name ∉ dbNames then ⟨false, 0, false, true⟩
  else if confirm = false then
    if ¬ (pyStrip (toLowerAscii r1) = "yes" ∨ pyStrip (toLowerAscii r1) = "y")
    then ⟨false, 1, false, true⟩
    else if pyStrip r2 ≠ name then ⟨false, 2, false, true⟩
    else if pyStrip r3 ≠ "DELETE" then ⟨false, 3, false, true⟩
    else if dropWorks then ⟨true, 3, true, true⟩ else ⟨false, 3, true, true⟩
  else if dropWorks then ⟨true, 0, true, true⟩ else ⟨false, 0, true, true⟩

/-! ### Listing databases (mongodb_drop.py, list_databases) -/
/-- The loop of `list_databases`: walk the server's database names, skip
`admin`, `local` and `config`, and report for each remaining database its
collection count and the sum of its collections' document counts. -/
def list_databases (dbs : List String) (colls : String → List String)
    (cnt : String → String → Nat) : List (String × Nat × Nat) :=
  match dbs with
  | [] => []
  | n :: rest =>
      if n = "admin" ∨ n = "local" ∨ n = "config" then list_databases rest colls cnt
      else (n, (colls n).length, ((colls n).map (cnt n)).sum) ::
        list_databases rest colls cnt

/-! ### Entry points and connection lifecycle -/
/-- Observable startup behaviour of a tool's `__main__` block: whether it
reported a missing-configuration error and exited before connecting, and
whether a server connection was attempted. -/
structure MainTrace where
  configErrorExit : Bool
  connectionAttempted : Bool
deriving DecidableEq, Repr

/-- Python truthiness of `os.getenv`'s result (`if not X`): `None` and the
empty string are falsy. -/
def truthy : Option String → Bool
  | none => false
  | some s => !(s.length == 0)

/-- mongodb_export.py `__main__`: reads the environment and calls
`export_mongodb_database` directly — no validation happens, so the client
is constructed no matter which environment values are missing. -/
def export_main (_env : String → Option String) : MainTrace := ⟨false, true⟩

/-- mongodb_import.py `__main__`: all three environment inputs are checked
and a missing or empty one exits non-zero before `MongoClient` is
reached. -/
def import_main (env : String → Option String) : MainTrace :=
  if !(truthy (env "MONGODB_CONNECTION_STRING")) ||
     !(truthy (env "DATABASE_NAME")) ||
     !(truthy (env "TARGET_DATABASE_NAME")) then ⟨true, false⟩
  else ⟨false, true⟩

/-- mongodb_drop.py `__main__`: the connection string (the only
environment input this tool needs; the database name comes from the
command line or a prompt) is checked first, and a missing one exits
non-zero before any connection; then `list`, `drop` and `force` reach the
server, while the usage message, an empty prompted name and unknown
commands exit without connecting. -/
def drop_main (env : String → Option String) (argv : List String)
    (promptName : String) : MainTrace :=
  if !(truthy (env "MONGODB_CONNECTION_STRING")) then ⟨true, false⟩
  else
    match argv with
    | [] => ⟨false, false⟩
    | cmd :: rest =>
        if toLowerAscii cmd = "list" then ⟨false, true⟩
        else if toLowerAscii cmd = "drop" ∨ toLowerAscii cmd = "force" then
          match rest with
          | _ :: _ => ⟨false, true⟩
          | [] => if (pyStrip promptName).length == 0 then ⟨false, false⟩
                  else ⟨false, true⟩
        else ⟨false, false⟩

/-! ### Claim C9: connection release on exit paths -/
/-- Observable connection lifecycle of one top-level operation. -/
structure OpTrace where
  closed : Bool
  success : Bool
deriving DecidableEq, Repr

/-- Whether some collection's fetch-or-write step raises during the export
loop. -/
def exportLoopFails (collFails : String → Bool) : List String → Bool
  | [] => false
  | c :: rest => collFails c || exportLoopFails collFails rest

/-- `export_mongodb_database`: after the client is constructed, the
collection enumeration or any collection's fetch/write may raise; the
`except` handler returns `False` without `client.close()` — only the
success path closes. -/
def export_mongodb_database (enumFails : Bool) (collections : List String)
    (collFails : String → Bool) : OpTrace :=
  if enumFails then ⟨false, false⟩
  else if exportLoopFails collFails collections then ⟨false, false⟩
  else ⟨true, true⟩

/-- Whether `client.close()` ran for an import outcome: the success path
closes before returning `True`; the reported failures and the exception
handler return without closing. -/
def runClosed : RunResult → Bool
  | .ok _ _ => true
  | .failed _ => false

/-! ## Theorems -/

/-! ### Claim C5: codec fallback safety -/
/-- A date-like string can never be a valid ObjectId literal: its fifth
character is `'-'`, which is not a hex digit. -/
theorem parseObjectId_of_datePattern (s : String)
    (h : matchesDatePattern s = true) : parseObjectId s = none := by
  rw [parseObjectId, if_neg]
  intro hc
  simp only [Bool.and_eq_true, decide_eq_true_eq, List.all_eq_true] at hc
  rw [matchesDatePattern, matchesDateChars.eq_def] at h
  split at h
  · rename_i heq
    have : isHexDigitCi '-' = true := by
      apply hc.2
      rw [heq]
      simp
    simp [isHexDigitCi, isDigitB] at this
  · simp at h

/-- When both parse attempts fail, a string entry is kept verbatim. -/
theorem convertStrEntry_keeps (k s : String)
    (h1 : parseObjectId s = none)
    (h2 : fromisoformat (pyReplaceZ s) = none) :
    convertStrEntry k s = .vStr s := by
  rw [convertStrEntry]
  by_cases hc : (k == "_id" && s.length == 24) = true
  · rw [if_pos hc, h1]
  · rw [if_neg hc]
    by_cases hp : matchesDatePattern s = true
    · rw [if_pos hp, h2]
    · rw [if_neg hp]

/-- C5: decoding never fails; in particular a 24-character non-hex string
under `_id` and a date-like string denoting an impossible calendar date
(one `fromisoformat` rejects) are both kept verbatim. -/
theorem claimC5_fallback_safety (k2 s1 s2 : String)
    (h1len : s1.length = 24)
    (h1hex : s1.data.all isHexDigitCi = false)
    (h2pat : matchesDatePattern s2 = true)
    (h2parse : fromisoformat (pyReplaceZ s2) = none) :
    convert_json_to_bson (.vDoc [("_id", .vStr s1), (k2, .vStr s2)]) =
      .vDoc [("_id", .vStr s1), (k2, .vStr s2)] := by
  have hp1 : parseObjectId s1 = none := by
    rw [parseObjectId, if_neg]
    simp [h1hex]
  have e1 : convertStrEntry "_id" s1 = .vStr s1 := by
    have hcond : ("_id" == "_id" && s1.length == 24) = true := by simp [h1len]
    rw [convertStrEntry, if_pos hcond, hp1]
  have e2 : convertStrEntry k2 s2 = .vStr s2 :=
    convertStrEntry_keeps k2 s2 (parseObjectId_of_datePattern s2 h2pat) h2parse
  show Value.vDoc [("_id", convertStrEntry "_id" s1), (k2, convertStrEntry k2 s2)] =
    Value.vDoc [("_id", .vStr s1), (k2, .vStr s2)]
  rw [e1, e2]

/-- Witness for C5: 24 `'z'` characters under `_id` survive, and the
impossible date `2023-02-31T10:00:00` (February the 31st) survives. -/
theorem claimC5_fallback_safety_witness :
    ("zzzzzzzzzzzzzzzzzzzzzzzz" : String).length = 24 ∧
      ("zzzzzzzzzzzzzzzzzzzzzzzz" : String).data.all isHexDigitCi = false ∧
      matchesDatePattern "2023-02-31T10:00:00" = true ∧
      fromisoformat (pyReplaceZ "2023-02-31T10:00:00") = none ∧
      convert_json_to_bson
          (.vDoc [("_id", .vStr "zzzzzzzzzzzzzzzzzzzzzzzz"),
                  ("when", .vStr "2023-02-31T10:00:00")]) =
        .vDoc [("_id", .vStr "zzzzzzzzzzzzzzzzzzzzzzzz"),
               ("when", .vStr "2023-02-31T10:00:00")] :=
  ⟨rfl, rfl, rfl, rfl,
    claimC5_fallback_safety "when" "zzzzzzzzzzzzzzzzzzzzzzzz"
      "2023-02-31T10:00:00" rfl rfl rfl rfl⟩

/-- If a text has no `.json` occurrence, neither does its tail. -/
theorem hasDotJson_cons (a : Char) (t : List Char)
    (h : hasDotJson (a :: t) = false) : hasDotJson t = false := by
  rw [hasDotJson.eq_def] at h
  split at h
  · exact absurd h (by simp)
  · rename_i heq
    injection heq with h1 h2
    rwa [h2]
  · rename_i heq3
    exact absurd heq3 (by simp)

/-- Appending `.json` to a text free of `.json` and stripping all `.json`
occurrences returns the original text: the trailing extension is removed
and nothing else is touched. -/
theorem dropJson_append (l : List Char) (h : hasDotJson l = false) :
    dropJsonChars (l ++ dotJsonL) = l := by
  induction l with
  | nil => rfl
  | cons a t ih =>
      rw [List.cons_append, dropJsonChars.eq_def]
      split
      · rename_i rest heq
        rcases t with _ | ⟨b, _ | ⟨c, _ | ⟨d, _ | ⟨e, t2⟩⟩⟩⟩ <;>
          simp [dotJsonL] at heq
        obtain ⟨ha, hb, hc2, hd, he, hrest⟩ := heq
        subst ha; subst hb; subst hc2; subst hd; subst he
        simp [hasDotJson] at h
      · rename_i c rest heq2
        injection heq2 with h1 h2
        subst h1
        subst h2
        exact congrArg (a :: .) (ih (hasDotJson_cons a t h))
      · rename_i heq
        exact absurd heq (by simp)

/-- C10: the import tool derives the collection name by deleting every
occurrence of `.json` from the file name: a name `<c>.json` whose stem has
no internal `.json` maps to exactly `<c>`, while `a.json.b.json` maps to
`a.b`. -/
theorem claimC10_collection_name :
    (∀ base : String, hasDotJson base.data = false →
      collectionNameOf (base ++ ".json") = base) ∧
    collectionNameOf "a.json.b.json" = "a.b" := by
  refine ⟨?_, rfl⟩
  intro base hb
  show String.mk (dropJsonChars (base.data ++ dotJsonL)) = base
  rw [dropJson_append base.data hb]

/-- Witness for C10 at the concrete file name `users.json`. -/
theorem claimC10_collection_name_witness :
    hasDotJson ("users" : String).data = false ∧
      collectionNameOf ("users" ++ ".json") = "users" :=
  ⟨rfl, claimC10_collection_name.1 "users" rfl⟩

/-- `convertElems` preserves the number of documents in a batch. -/
theorem length_convertElems : ∀ es : List Value,
    (convertElems es).length = es.length
  | [] => rfl
  | _ :: rest => by
      simp only [convertElems, List.length_cons, length_convertElems rest]

/-! ### Claim C2: failure isolation across units -/
/-- C2, as stated, is false: with two units `a.json` and `b.json` and a
server that fails the insert into collection `a`, the run aborts at the
first unit — it ends in whole-run failure with nothing imported, and in
particular collection `b` (the sibling unit) stays empty instead of being
imported. -/
theorem claimC2_counterexample :
    importFiles (fun n => n == "a") (fun _ => []) 0
        [⟨"a.json", .vArr [.vNull]⟩, ⟨"b.json", .vArr [.vNull]⟩] =
      .failed (fun _ => []) ∧
    (fun _ => ([] : List Value)) "b" = [] :=
  ⟨rfl, rfl⟩

/-- C2 (amended): a server-side insert failure on one unit aborts the
entire run — the exception escapes the loop, the remaining units are never
processed (the result does not depend on them), and the run is reported as
a whole-run failure. -/
theorem claimC2_failure_aborts_run (failOn : String → Bool)
    (db dbErr : DBState) (f : ImportFile) (rest : List ImportFile)
    (total : Nat) (h : processFile failOn db f = .error dbErr) :
    importFiles failOn db total (f :: rest) = .failed dbErr := by
  rw [importFiles, h]

/-- Witness for the amended C2: a failing first unit aborts a two-unit
run. -/
theorem claimC2_failure_aborts_run_witness :
    processFile (fun _ => true) (fun _ => []) ⟨"a.json", .vArr [.vNull]⟩ =
        .error (fun _ => []) ∧
      importFiles (fun _ => true) (fun _ => []) 0
          [⟨"a.json", .vArr [.vNull]⟩, ⟨"b.json", .vArr [.vNull]⟩] =
        .failed (fun _ => []) :=
  ⟨rfl, claimC2_failure_aborts_run (fun _ => true) (fun _ => []) (fun _ => [])
    ⟨"a.json", .vArr [.vNull]⟩ [⟨"b.json", .vArr [.vNull]⟩] 0 rfl⟩

/-- Evaluation of one non-empty list unit when the server insert does not
fail: the target collection is dropped when non-empty, then the converted
batch is inserted. -/
theorem processFile_insert (failOn : String → Bool) (db : DBState)
    (fname : String) (a : Value) (t : List Value)
    (hfail : failOn (collectionNameOf fname) = false) :
    processFile failOn db ⟨fname, .vArr (a :: t)⟩ =
      .ok (insertMany
            (if countDocuments db (collectionNameOf fname) > 0
             then dropCollection db (collectionNameOf fname) else db)
            (collectionNameOf fname) (convertElems (a :: t)))
        (convertElems (a :: t)).length := by
  simp only [processFile, isFalsy, List.isEmpty_cons, Bool.false_eq_true,
    if_false, convert_json_to_bson, convertElems, hfail, ite_false]

/-- C3, as stated over every unit (N ≥ 0), is false at N = 0: importing the
empty unit `c.json` into a collection holding M = 1 documents skips the
unit entirely — the M existing documents are not removed, and the
collection holds M = 1 documents afterwards, not N = 0. -/
theorem claimC3_counterexample :
    importFiles (fun _ => false) dbC3 0 [⟨"c.json", .vArr []⟩] = .ok dbC3 0 ∧
      countDocuments dbC3 "c" = 1 :=
  ⟨rfl, rfl⟩

/-- C3 (amended): for a unit holding N ≥ 1 documents imported into a target
collection that already holds M > 0 documents (no server failure), the M
documents are removed first and the collection holds exactly N documents
afterwards, never M + N; a unit with N = 0 documents is skipped and leaves
the M documents in place. -/
theorem claimC3_replace_semantics (failOn : String → Bool) (db : DBState)
    (fname : String) (es : List Value) (hes : es ≠ [])
    (hM : 0 < countDocuments db (collectionNameOf fname))
    (hfail : failOn (collectionNameOf fname) = false) :
    ∃ db2 : DBState,
      importFiles failOn db 0 [⟨fname, .vArr es⟩] = .ok db2 es.length ∧
        countDocuments db2 (collectionNameOf fname) = es.length := by
  obtain ⟨a, t, rfl⟩ : ∃ a t, es = a :: t := by
    cases es with
    | nil => exact absurd rfl hes
    | cons a t => exact ⟨a, t, rfl⟩
  refine ⟨insertMany (dropCollection db (collectionNameOf fname))
      (collectionNameOf fname) (convertElems (a :: t)), ?_, ?_⟩
  · simp only [importFiles, processFile_insert failOn db fname a t hfail,
      if_pos hM, Nat.zero_add, length_convertElems]
  · simp only [countDocuments, insertMany, dropCollection, eq_self_iff_true,
      if_true, ite_true, List.nil_append, length_convertElems]

/-- Witness for the amended C3: a one-document unit replaces a
two-document collection, leaving exactly one document. -/
theorem claimC3_replace_semantics_witness :
    ([Value.vNull] ≠ ([] : List Value)) ∧
      0 < countDocuments dbC3w (collectionNameOf "c.json") ∧
      (fun _ : String => false) (collectionNameOf "c.json") = false ∧
      ∃ db2 : DBState,
        importFiles (fun _ => false) dbC3w 0 [⟨"c.json", .vArr [.vNull]⟩] =
            .ok db2 [Value.vNull].length ∧
          countDocuments db2 (collectionNameOf "c.json") = [Value.vNull].length :=
  ⟨List.cons_ne_nil _ _, by decide, rfl,
    claimC3_replace_semantics (fun _ => false) dbC3w "c.json" [.vNull]
      (List.cons_ne_nil _ _) (by decide) rfl⟩

/-! ### Claim C4: batch count invariant -/
/-- C4: importing a unit of N documents into an empty collection (no server
failure) inserts exactly N documents; an N = 0 unit is skipped — no write
reaches the server, the database is untouched whatever the failure oracle
says, and the run still succeeds. -/
theorem claimC4_batch_count (failOn : String → Bool) (db : DBState)
    (fname : String) (es : List Value)
    (hempty : db (collectionNameOf fname) = [])
    (hfail : failOn (collectionNameOf fname) = false) :
    ∃ db2 : DBState,
      importFiles failOn db 0 [⟨fname, .vArr es⟩] = .ok db2 es.length ∧
        countDocuments db2 (collectionNameOf fname) = es.length ∧
        (es = [] → ∀ g : String → Bool,
          importFiles g db 0 [⟨fname, .vArr es⟩] = .ok db 0) := by
  cases es with
  | nil =>
      refine ⟨db, rfl, ?_, fun _ g => rfl⟩
      rw [countDocuments, hempty]
  | cons a t =>
      have hM : ¬ countDocuments db (collectionNameOf fname) > 0 := by
        rw [countDocuments, hempty]
        simp
      refine ⟨insertMany db (collectionNameOf fname) (convertElems (a :: t)),
        ?_, ?_, ?_⟩
      · simp only [importFiles, processFile_insert failOn db fname a t hfail,
          if_neg hM, Nat.zero_add, length_convertElems]
      · simp only [countDocuments, insertMany, eq_self_iff_true, if_true,
          ite_true, hempty, List.nil_append, length_convertElems]
      · intro h
        exact absurd h (by simp)

/-- Witness for C4: a two-document unit into an empty collection inserts
exactly two documents. -/
theorem claimC4_batch_count_witness :
    ((fun _ : String => ([] : List Value)) (collectionNameOf "users.json") = []) ∧
      (fun _ : String => false) (collectionNameOf "users.json") = false ∧
      ∃ db2 : DBState,
        importFiles (fun _ => false) (fun _ => []) 0
            [⟨"users.json", .vArr [.vNull, .vBool true]⟩] =
          .ok db2 [Value.vNull, Value.vBool true].length ∧
        countDocuments db2 (collectionNameOf "users.json") =
          [Value.vNull, Value.vBool true].length ∧
        ([Value.vNull, Value.vBool true] = ([] : List Value) → ∀ g : String → Bool,
          importFiles g (fun _ => []) 0
            [⟨"users.json", .vArr [.vNull, .vBool true]⟩] = .ok (fun _ => []) 0) :=
  ⟨rfl, rfl,
    claimC4_batch_count (fun _ => false) (fun _ => []) "users.json"
      [.vNull, .vBool true] rfl rfl⟩

/-! ### Claim C6: guard gate ordering -/
/-- C6: with an existing database and no skip-confirmation, an affirmative
Gate A answer followed by a mismatched name at Gate B ends the workflow in
an abort after exactly two prompts — Gate C is never read, no drop command
is issued, and the outcome does not depend on the Gate C answer. -/
theorem claimC6_gate_ordering (dbNames : List String) (name : String)
    (r1 r2 r3 : String) (dropWorks : Bool)
    (hmem : name ∈ dbNames)
    (hA : pyStrip (toLowerAscii r1) = "yes" ∨ pyStrip (toLowerAscii r1) = "y")
    (hB : pyStrip r2 ≠ name) :
    drop_mongodb_database dbNames name false r1 r2 r3 dropWorks =
      ⟨false, 2, false, true⟩ := by
  rw [drop_mongodb_database, if_neg (by simp [hmem]), if_pos rfl,
    if_neg (by simp [hA]), if_pos hB]

/-- Witness for C6: an affirmative ` YES ` then the mistyped name `mydp`
abort the drop of `mydb` after two prompts. -/
theorem claimC6_gate_ordering_witness :
    ("mydb" ∈ ["mydb", "other"]) ∧
      (pyStrip (toLowerAscii " YES ") = "yes" ∨
        pyStrip (toLowerAscii " YES ") = "y") ∧
      pyStrip "mydp" ≠ "mydb" ∧
      drop_mongodb_database ["mydb", "other"] "mydb" false " YES " "mydp"
          "DELETE" true = ⟨false, 2, false, true⟩ :=
  ⟨by simp, Or.inl rfl, by decide,
    claimC6_gate_ordering ["mydb", "other"] "mydb" " YES " "mydp" "DELETE" true
      (by simp) (Or.inl rfl) (by decide)⟩

/-! ### Claim C7: ListDatabases -/
/-- C7: the report enumerates exactly the server's databases minus the
fixed three reserved names, in order, each with its collection count and
the total document count summed across its collections. -/
theorem claimC7_list_databases (dbs : List String)
    (colls : String → List String) (cnt : String → String → Nat) :
    list_databases dbs colls cnt =
      (dbs.filter
          (fun n => !(n == "admin" || n == "local" || n == "config"))).map
        (fun n => (n, (colls n).length, ((colls n).map (cnt n)).sum)) := by
  induction dbs with
  | nil => rfl
  | cons n rest ih =>
      rw [list_databases]
      by_cases h : n = "admin" ∨ n = "local" ∨ n = "config"
      · rw [if_pos h, ih, List.filter_cons]
        have : (!(n == "admin" || n == "local" || n == "config")) = false := by
          rcases h with h | h | h <;> simp [h]
        rw [this]
        simp
      · rw [if_neg h, ih, List.filter_cons]
        push_neg at h
        have : (!(n == "admin" || n == "local" || n == "config")) = true := by
          simp [h.1, h.2.1, h.2.2]
        rw [this]
        simp

/-! ### Claim C8: configuration validation before network contact -/
/-- C8, as stated over every entry point, is false: the export tool with
every required environment input absent reports no configuration error and
still proceeds to attempt the connection. -/
theorem claimC8_counterexample :
    (export_main (fun _ => none)).configErrorExit = false ∧
      (export_main (fun _ => none)).connectionAttempted = true :=
  ⟨rfl, rfl⟩

/-- C8 (amended): the import tool validates its three environment inputs
and the drop tool validates its connection string, each reporting a
configuration error and exiting non-zero before any connection is
attempted; the export tool performs no such validation and always proceeds
to attempt the connection. -/
theorem claimC8_config_validation (env : String → Option String)
    (argv : List String) (promptName : String) :
    ((truthy (env "MONGODB_CONNECTION_STRING") = false ∨
        truthy (env "DATABASE_NAME") = false ∨
        truthy (env "TARGET_DATABASE_NAME") = false) →
      import_main env = ⟨true, false⟩) ∧
    (truthy (env "MONGODB_CONNECTION_STRING") = false →
      drop_main env argv promptName = ⟨true, false⟩) ∧
    export_main env = ⟨false, true⟩ := by
  refine ⟨?_, ?_, rfl⟩
  · intro h
    unfold import_main
    rcases h with h | h | h <;> simp [h]
  · intro h
    unfold drop_main
    simp [h]

/-- Witness for the amended C8 with every environment input absent. -/
theorem claimC8_config_validation_witness :
    import_main (fun _ => none) = ⟨true, false⟩ ∧
      drop_main (fun _ => none) ["drop", "mydb"] "" = ⟨true, false⟩ ∧
      export_main (fun _ => none) = ⟨false, true⟩ :=
  ⟨(claimC8_config_validation (fun _ => none) ["drop", "mydb"] "").1
      (Or.inl rfl),
    (claimC8_config_validation (fun _ => none) ["drop", "mydb"] "").2.1 rfl,
    (claimC8_config_validation (fun _ => none) ["drop", "mydb"] "").2.2⟩

/-- C9, as stated, is false: an export run whose single collection's
fetch/write raises takes the error exit path and leaves the connection
open (`closed = false`). -/
theorem claimC9_counterexample :
    (export_mongodb_database false ["users"] (fun _ => true)).success =
        false ∧
      (export_mongodb_database false ["users"] (fun _ => true)).closed =
        false :=
  ⟨rfl, rfl⟩

/-- C9 (amended): the connection is closed exactly on the success path for
export and import — their exception/error exit paths leak it — while the
drop routine closes on all of its non-exception paths, including every
confirmation abort. -/
theorem claimC9_close_on_exit (enumFails : Bool) (collections : List String)
    (collFails : String → Bool) (failOn : String → Bool) (db : DBState)
    (total : Nat) (files : List ImportFile) (dbNames : List String)
    (name : String) (confirm : Bool) (r1 r2 r3 : String) (dropWorks : Bool) :
    ((export_mongodb_database enumFails collections collFails).closed = true ↔
      (export_mongodb_database enumFails collections collFails).success =
        true) ∧
    (runClosed (importFiles failOn db total files) = true ↔
      ∃ db2 n, importFiles failOn db total files = .ok db2 n) ∧
    (drop_mongodb_database dbNames name confirm r1 r2 r3 dropWorks).closed =
      true := by
  refine ⟨?_, ?_, ?_⟩
  · unfold export_mongodb_database
    split_ifs <;> simp
  · cases h : importFiles failOn db total files with
    | ok db2 n =>
        simp only [runClosed, true_iff]
        exact ⟨db2, n, rfl⟩
    | failed db2 =>
        simp only [runClosed]
        constructor
        · intro hfalse
          exact absurd hfalse (by simp)
        · intro ⟨d2, n2, hcontra⟩
          exact absurd hcontra (by simp)
  · unfold drop_mongodb_database
    split_ifs <;> rfl

end MongoTools
